/-
Verification of the seat-inventory and booking/payment core of the amc-mcp
movie-booking server.

The embedding below is a shallow translation of the two Python
implementations in the repository:
  * `src/amc_mcp/fastmcp_server.py` (module-level functions, global dicts)
  * `src/amc_mcp/server.py` (class `AMCMCPServer`, instance dicts)

Modelling conventions:
  * Python `dict` (insertion ordered, unique string keys) is an association
    list `List (String × α)`; `dict[k] = v` replaces the value in place when
    the key is present and appends at the end otherwise (`dset`), `dict.get`
    / `in` is first-match lookup (`dget` / `dmem`); every dict reachable in
    the model is built from `[]` by `dset`, hence key-unique, so first-match
    equals Python lookup.
  * Python `float` prices and amounts are modelled as exact rationals `Rat`
    (the literals involved, `15.00` and `0.01`, stand for the real numbers
    the code intends).
  * `uuid.uuid4()` and `datetime.now().isoformat()` are modelled as explicit
    parameters (`booking_uuid`, `payment_uuid`, `now`) supplied by the
    environment; the reachability relation records the freshness that uuid
    generation guarantees.
  * The JSON payloads returned by the tools are modelled structurally: each
    `return json.dumps({...})` of the source becomes one constructor of a
    result type carrying exactly the data the source interpolates into the
    JSON object.  Stateful operations return the result together with the
    (possibly updated) global state.
-/
import Mathlib

namespace AmcMcp

/-! ### Python dicts as association lists -/

/-- `d.get(k)` / `d[k]` lookup on an insertion-ordered dict. -/
def dget {α : Type} : List (String × α) → String → Option α
  | [], _ => none
  | (k', v) :: t, k => if k' == k then some v else dget t k

/-- `k in d`. -/
def dmem {α : Type} (d : List (String × α)) (k : String) : Bool :=
  (dget d k).isSome

/-- `d[k] = v`: replace in place when present, append otherwise (Python
dict-assignment semantics on an insertion-ordered dict). -/
def dset {α : Type} : List (String × α) → String → α → List (String × α)
  | [], k, v => [(k, v)]
  | (k', v') :: t, k, v => if k' == k then (k, v) :: t else (k', v') :: dset t k v

/-- `d.values()`, in insertion order. -/
def dvalues {α : Type} (d : List (String × α)) : List α :=
  d.map (·.2)

/-! ### Data model (the pydantic models of both source files) -/

/-- `class Movie(BaseModel)`. -/
structure Movie where
  movie_id : String
  title : String
  rating : String
  duration : Nat
  genre : String
  description : String
  poster_url : String
deriving Repr, DecidableEq

/-- `class Theater(BaseModel)`. -/
structure Theater where
  theater_id : String
  name : String
  address : String
  city : String
  state : String
  zip_code : String
deriving Repr, DecidableEq

/-- `class Showtime(BaseModel)`. -/
structure Showtime where
  showtime_id : String
  movie_id : String
  theater_id : String
  date : String
  time : String
  format : String
  price : Rat
deriving Repr, DecidableEq

/-- One entry of `seats_data[showtime_id]`: the raw seat dict loaded from
`seats.json`.  The code reads `seat_data["seat_number"]`, `["row"]`,
`["column"]`, `["price_tier"]` unconditionally and `seat_data.get("price",
15.00)` with a default, so `price` is optional here. -/
structure SeatData where
  seat_number : String
  row : String
  column : Nat
  price_tier : String
  price : Option Rat
deriving Repr, DecidableEq

/-- `class Booking(BaseModel)`. -/
structure Booking where
  booking_id : String
  showtime_id : String
  seats : List String
  user_id : String
  status : String
  total_price : Rat
  created_at : String
deriving Repr, DecidableEq

/-- `class Payment(BaseModel)`. -/
structure Payment where
  payment_id : String
  booking_id : String
  amount : Rat
  payment_method : String
  status : String
  receipt_url : Option String
deriving Repr, DecidableEq

/-- The global mutable state of `fastmcp_server.py` (equally: the instance
state of `AMCMCPServer` in `server.py`): the five catalog dicts loaded by
`load_mock_data` plus the two ledgers. -/
structure ServerState where
  movies : List (String × Movie)
  theaters : List (String × Theater)
  showtimes : List (String × Showtime)
  seats_data : List (String × List SeatData)
  bookings : List (String × Booking)
  payments : List (String × Payment)
deriving Repr, DecidableEq

/-! ### Shared sub-expressions of the tool implementations -/

/-- The `is_booked` generator expression appearing in `_get_seat_map` and
`_book_seats`:
`any(seat in booking.seats and booking.status == "confirmed"
     for booking in bookings.values() if booking.showtime_id == showtime_id)`. -/
def seatIsBooked (bookings : List (String × Booking)) (showtime_id seat_num : String) : Bool :=
  (dvalues bookings).any fun booking =>
    booking.showtime_id == showtime_id &&
      (booking.seats.contains seat_num && booking.status == "confirmed")

/-- `movie.title if movie else "Unknown"` after `movie = movies.get(...)`. -/
def movieTitle (movies : List (String × Movie)) (movie_id : String) : String :=
  match dget movies movie_id with
  | some movie => movie.title
  | none => "Unknown"

/-- `theater.name if theater else "Unknown Theater"` after
`theater = theaters.get(...)`. -/
def theaterName (theaters : List (String × Theater)) (theater_id : String) : String :=
  match dget theaters theater_id with
  | some theater => theater.name
  | none => "Unknown Theater"

/-! ### get_seat_map -/

/-- One element of the `seat_map` list built by `_get_seat_map`. -/
structure SeatMapEntry where
  seat_number : String
  row : String
  column : Nat
  is_available : Bool
  price_tier : String
  price : Rat
deriving Repr, DecidableEq

/-- The success payload of `_get_seat_map`. -/
structure SeatMapPayload where
  showtime_id : String
  movie : String
  theater : String
  date : String
  time : String
  seat_map : List SeatMapEntry
deriving Repr, DecidableEq

/-- Result of `_get_seat_map`: either the error JSON object
`{"error": msg}` or the success payload. -/
inductive SeatMapResult where
  | error (msg : String)
  | ok (payload : SeatMapPayload)
deriving Repr, DecidableEq

/-- `_get_seat_map(showtime_id)` of `fastmcp_server.py` (lines 270-309).
The function only reads the globals; the returned state is the input state,
reflecting that the source contains no assignment to any global. -/
def get_seat_map (st : ServerState) (showtime_id : String) :
    SeatMapResult × ServerState :=
  if showtime_id == "" then (.error "Invalid showtime ID", st) else
  match dget st.showtimes showtime_id with
  | none => (.error "Invalid showtime ID", st)
  | some showtime =>
    let seats := (dget st.seats_data showtime_id).getD []
    let seat_map := seats.map fun seat_data =>
      let is_booked := seatIsBooked st.bookings showtime_id seat_data.seat_number
      ({ seat_number := seat_data.seat_number
         row := seat_data.row
         column := seat_data.column
         is_available := !is_booked
         price_tier := seat_data.price_tier
         price := seat_data.price.getD 15 } : SeatMapEntry)
    (.ok { showtime_id := showtime_id
           movie := movieTitle st.movies showtime.movie_id
           theater := theaterName st.theaters showtime.theater_id
           date := showtime.date
           time := showtime.time
           seat_map := seat_map }, st)

/-! ### book_seats -/

/-- The accumulator of the validation loop in `_book_seats`
(`unavailable_seats = []`, `total_price = 0.0`). -/
structure SeatCheckAcc where
  unavailable_seats : List String
  total_price : Rat
deriving Repr, DecidableEq

/-- `seat_lookup = {s["seat_number"]: s for s in showtime_seats}` where
`showtime_seats = seats_data.get(showtime_id, [])`. -/
def seat_lookup_of (st : ServerState) (showtime_id : String) :
    List (String × SeatData) :=
  ((dget st.seats_data showtime_id).getD []).foldl
    (fun d s => dset d s.seat_number s) []

/-- One iteration of the `for seat_num in seats` validation loop of
`_book_seats` (lines 343-360): a missing seat appends the seat id followed
by the marker " (doesn\x27t exist)", a confirmed-booked seat appends the
seat id followed by " (already booked)", otherwise the seat price (default
15.00) is added to the running total. -/
def seat_check (seat_lookup : List (String × SeatData))
    (bookings : List (String × Booking)) (showtime_id : String)
    (acc : SeatCheckAcc) (seat_num : String) : SeatCheckAcc :=
  match dget seat_lookup seat_num with
  | none =>
    { acc with
      unavailable_seats := acc.unavailable_seats ++ [seat_num ++ " (doesn\x27t exist)"] }
  | some seat =>
    if seatIsBooked bookings showtime_id seat_num then
      { acc with
        unavailable_seats := acc.unavailable_seats ++ [seat_num ++ " (already booked)"] }
    else
      { acc with total_price := acc.total_price + seat.price.getD 15 }

/-- The success payload of `_book_seats`. -/
structure BookingPayload where
  booking_id : String
  status : String
  movie : String
  theater : String
  date : String
  time : String
  seats : List String
  total_price : Rat
deriving Repr, DecidableEq

/-- Result of `_book_seats`.  `error` covers
`{"error": "Invalid showtime ID"}` and
`{"error": "Seats and user_id are required"}`; `unavailable l` is the
rejection error object whose message is "Unavailable seats: " followed by
the accumulated `unavailable_seats` list joined with a comma separator. -/
inductive BookSeatsResult where
  | error (msg : String)
  | unavailable (unavailable_seats : List String)
  | ok (payload : BookingPayload)
deriving Repr, DecidableEq

/-- `_book_seats(showtime_id, seats, user_id)` of `fastmcp_server.py`
(lines 328-394).  `booking_uuid` models `str(uuid.uuid4())` and `now`
models `datetime.now().isoformat()`. -/
def book_seats (st : ServerState) (showtime_id : String) (seats : List String)
    (user_id : String) (booking_uuid : String) (now : String) :
    BookSeatsResult × ServerState :=
  if showtime_id == "" then (.error "Invalid showtime ID", st) else
  match dget st.showtimes showtime_id with
  | none => (.error "Invalid showtime ID", st)
  | some showtime =>
    if seats.isEmpty || user_id == "" then
      (.error "Seats and user_id are required", st)
    else
      let seat_lookup := seat_lookup_of st showtime_id
      let check := seats.foldl (seat_check seat_lookup st.bookings showtime_id)
        { unavailable_seats := [], total_price := 0 }
      if !check.unavailable_seats.isEmpty then
        (.unavailable check.unavailable_seats, st)
      else
        let booking : Booking :=
          { booking_id := booking_uuid
            showtime_id := showtime_id
            seats := seats
            user_id := user_id
            status := "pending"
            total_price := check.total_price
            created_at := now }
        let st1 := { st with bookings := dset st.bookings booking_uuid booking }
        (.ok { booking_id := booking_uuid
               status := "pending"
               movie := movieTitle st.movies showtime.movie_id
               theater := theaterName st.theaters showtime.theater_id
               date := showtime.date
               time := showtime.time
               seats := seats
               total_price := check.total_price }, st1)

/-! ### process_payment -/

/-- The Python built-in `abs` on a rational amount. -/
def pyabs (q : Rat) : Rat :=
  if q < 0 then -q else q

/-- The `confirmation` sub-object of the `_process_payment` success payload. -/
structure Confirmation where
  movie : String
  theater : String
  date : String
  time : String
  seats : List String
  total_paid : Rat
deriving Repr, DecidableEq

/-- The success payload of `_process_payment`. -/
structure PaymentPayload where
  payment_id : String
  payment_status : String
  booking_id : String
  receipt_url : String
  confirmation : Confirmation
deriving Repr, DecidableEq

/-- Result of `_process_payment`.  `error` covers
the Invalid booking ID message and the InvalidState message
"Booking status is ", the actual status and ", expected pending"
concatenated; `amountMismatch expected received` is the rejection whose
message is Amount mismatch with the two amounts formatted to two decimal
places, carrying the two amounts the source formats into the message;
`keyError` is the `KeyError` the bare subscript
`showtimes[booking.showtime_id]` raises when the showtime is absent (which
happens only after both ledger writes). -/
inductive PaymentResult where
  | error (msg : String)
  | amountMismatch (expected received : Rat)
  | keyError
  | ok (payload : PaymentPayload)
deriving Repr, DecidableEq

/-- `_process_payment(booking_id, payment_method, amount)` of
`fastmcp_server.py` (lines 413-463).  `payment_uuid` models
`str(uuid.uuid4())`.  Note the write order of the source: the Payment is
stored and the booking status set to `"confirmed"` before the showtime
subscript is evaluated. -/
def process_payment (st : ServerState) (booking_id : String)
    (payment_method : String) (amount : Rat) (payment_uuid : String) :
    PaymentResult × ServerState :=
  if booking_id == "" then (.error "Invalid booking ID", st) else
  match dget st.bookings booking_id with
  | none => (.error "Invalid booking ID", st)
  | some booking =>
    if booking.status != "pending" then
      (.error ("Booking status is " ++ booking.status ++ ", expected pending"), st)
    else if pyabs (amount - booking.total_price) > 1 / 100 then
      (.amountMismatch booking.total_price amount, st)
    else
      let receipt_url := "https://amc.com/receipts/" ++ payment_uuid
      let payment : Payment :=
        { payment_id := payment_uuid
          booking_id := booking_id
          amount := amount
          payment_method := payment_method
          status := "success"
          receipt_url := some receipt_url }
      let st1 := { st with payments := dset st.payments payment_uuid payment }
      let st2 := { st1 with
        bookings := dset st1.bookings booking_id { booking with status := "confirmed" } }
      match dget st2.showtimes booking.showtime_id with
      | none => (.keyError, st2)
      | some showtime =>
        (.ok { payment_id := payment_uuid
               payment_status := "success"
               booking_id := booking_id
               receipt_url := receipt_url
               confirmation :=
                 { movie := movieTitle st2.movies showtime.movie_id
                   theater := theaterName st2.theaters showtime.theater_id
                   date := showtime.date
                   time := showtime.time
                   seats := booking.seats
                   total_paid := amount } }, st2)

/-! ### Reachable states

The ledgers start empty (`bookings: Dict[str, Booking] = {}`,
`payments: Dict[str, Payment] = {}`); the catalog dicts are whatever
`load_mock_data` produced and are never written afterwards.  The only
writers of the ledgers are `_book_seats` and `_process_payment`; the uuid
arguments are fresh, as `uuid.uuid4()` guarantees. -/
inductive Reachable : ServerState → Prop where
  | init (movies : List (String × Movie)) (theaters : List (String × Theater))
      (showtimes : List (String × Showtime))
      (seats_data : List (String × List SeatData)) :
      Reachable { movies := movies, theaters := theaters, showtimes := showtimes,
                  seats_data := seats_data, bookings := [], payments := [] }
  | book (st : ServerState) (showtime_id : String) (seats : List String)
      (user_id booking_uuid now : String) :
      Reachable st → dmem st.bookings booking_uuid = false →
      Reachable (book_seats st showtime_id seats user_id booking_uuid now).2
  | pay (st : ServerState) (booking_id payment_method : String) (amount : Rat)
      (payment_uuid : String) :
      Reachable st → dmem st.payments payment_uuid = false →
      Reachable (process_payment st booking_id payment_method amount payment_uuid).2

/-! ### The `AMCMCPServer` class of `server.py`

`server.py` carries a second, independent implementation of the same six
tools as methods of `class AMCMCPServer`, reading `self.bookings`,
`self.payments` and the catalog dicts loaded by `_load_mock_data` (the
pydantic models of the two files coincide field for field, so the state
type and the payload types are shared).  The methods receive their
arguments out of the decoded `args` dict; the translation below takes the
decoded values directly and unwraps the `CallToolResult`/`TextContent`/
`json.dumps` envelope to the same structural results as above. -/
namespace AMCMCPServer

/-- The `is_booked` generator expression of `server.py` (`_get_seat_map`
lines 353-357, `_book_seats` lines 415-419). -/
def seatIsBooked (bookings : List (String × Booking)) (showtime_id seat_num : String) : Bool :=
  (dvalues bookings).any fun booking =>
    booking.showtime_id == showtime_id &&
      (booking.seats.contains seat_num && booking.status == "confirmed")

/-- `AMCMCPServer._get_seat_map` (`server.py` lines 338-383). -/
def get_seat_map (st : ServerState) (showtime_id : String) :
    SeatMapResult × ServerState :=
  if showtime_id == "" then (.error "Invalid showtime ID", st) else
  match dget st.showtimes showtime_id with
  | none => (.error "Invalid showtime ID", st)
  | some showtime =>
    let seats := (dget st.seats_data showtime_id).getD []
    let seat_map := seats.map fun seat_data =>
      let is_booked := seatIsBooked st.bookings showtime_id seat_data.seat_number
      ({ seat_number := seat_data.seat_number
         row := seat_data.row
         column := seat_data.column
         is_available := !is_booked
         price_tier := seat_data.price_tier
         price := seat_data.price.getD 15 } : SeatMapEntry)
    (.ok { showtime_id := showtime_id
           movie := movieTitle st.movies showtime.movie_id
           theater := theaterName st.theaters showtime.theater_id
           date := showtime.date
           time := showtime.time
           seat_map := seat_map }, st)

/-- `seat_lookup = {s["seat_number"]: s for s in showtime_seats}`
(`server.py` line 406). -/
def seat_lookup_of (st : ServerState) (showtime_id : String) :
    List (String × SeatData) :=
  ((dget st.seats_data showtime_id).getD []).foldl
    (fun d s => dset d s.seat_number s) []

/-- One iteration of the `for seat_num in seats` loop of
`AMCMCPServer._book_seats` (`server.py` lines 408-425). -/
def seat_check (seat_lookup : List (String × SeatData))
    (bookings : List (String × Booking)) (showtime_id : String)
    (acc : SeatCheckAcc) (seat_num : String) : SeatCheckAcc :=
  match dget seat_lookup seat_num with
  | none =>
    { acc with
      unavailable_seats := acc.unavailable_seats ++ [seat_num ++ " (doesn\x27t exist)"] }
  | some seat =>
    if seatIsBooked bookings showtime_id seat_num then
      { acc with
        unavailable_seats := acc.unavailable_seats ++ [seat_num ++ " (already booked)"] }
    else
      { acc with total_price := acc.total_price + seat.price.getD 15 }

/-- `AMCMCPServer._book_seats` (`server.py` lines 385-463). -/
def book_seats (st : ServerState) (showtime_id : String) (seats : List String)
    (user_id : String) (booking_uuid : String) (now : String) :
    BookSeatsResult × ServerState :=
  if showtime_id == "" then (.error "Invalid showtime ID", st) else
  match dget st.showtimes showtime_id with
  | none => (.error "Invalid showtime ID", st)
  | some showtime =>
    if seats.isEmpty || user_id == "" then
      (.error "Seats and user_id are required", st)
    else
      let seat_lookup := seat_lookup_of st showtime_id
      let check := seats.foldl (seat_check seat_lookup st.bookings showtime_id)
        { unavailable_seats := [], total_price := 0 }
      if !check.unavailable_seats.isEmpty then
        (.unavailable check.unavailable_seats, st)
      else
        let booking : Booking :=
          { booking_id := booking_uuid
            showtime_id := showtime_id
            seats := seats
            user_id := user_id
            status := "pending"
            total_price := check.total_price
            created_at := now }
        let st1 := { st with bookings := dset st.bookings booking_uuid booking }
        (.ok { booking_id := booking_uuid
               status := "pending"
               movie := movieTitle st.movies showtime.movie_id
               theater := theaterName st.theaters showtime.theater_id
               date := showtime.date
               time := showtime.time
               seats := seats
               total_price := check.total_price }, st1)

/-- `AMCMCPServer._process_payment` (`server.py` lines 465-527). -/
def process_payment (st : ServerState) (booking_id : String)
    (payment_method : String) (amount : Rat) (payment_uuid : String) :
    PaymentResult × ServerState :=
  if booking_id == "" then (.error "Invalid booking ID", st) else
  match dget st.bookings booking_id with
  | none => (.error "Invalid booking ID", st)
  | some booking =>
    if booking.status != "pending" then
      (.error ("Booking status is " ++ booking.status ++ ", expected pending"), st)
    else if pyabs (amount - booking.total_price) > 1 / 100 then
      (.amountMismatch booking.total_price amount, st)
    else
      let receipt_url := "https://amc.com/receipts/" ++ payment_uuid
      let payment : Payment :=
        { payment_id := payment_uuid
          booking_id := booking_id
          amount := amount
          payment_method := payment_method
          status := "success"
          receipt_url := some receipt_url }
      let st1 := { st with payments := dset st.payments payment_uuid payment }
      let st2 := { st1 with
        bookings := dset st1.bookings booking_id { booking with status := "confirmed" } }
      match dget st2.showtimes booking.showtime_id with
      | none => (.keyError, st2)
      | some showtime =>
        (.ok { payment_id := payment_uuid
               payment_status := "success"
               booking_id := booking_id
               receipt_url := receipt_url
               confirmation :=
                 { movie := movieTitle st2.movies showtime.movie_id
                   theater := theaterName st2.theaters showtime.theater_id
                   date := showtime.date
                   time := showtime.time
                   seats := booking.seats
                   total_paid := amount } }, st2)

end AMCMCPServer

/-! ### A concrete catalog and trace, used to witness the theorems below -/

namespace Demo

/-- A single showtime `st001` of movie `mv001` at theater `th001`. -/
def st001 : Showtime :=
  { showtime_id := "st001", movie_id := "mv001", theater_id := "th001",
    date := "2025-10-28", time := "19:00", format := "IMAX", price := 15 }

def mv001 : Movie :=
  { movie_id := "mv001", title := "Inception", rating := "PG-13",
    duration := 148, genre := "Sci-Fi", description := "A mind-bending thriller",
    poster_url := "https://example.com/inception.jpg" }

def th001 : Theater :=
  { theater_id := "th001", name := "AMC Boston Common", address := "175 Tremont St",
    city := "Boston", state := "MA", zip_code := "02111" }

/-- Seat `A5` carries an explicit price of 12; seat `A6` has no `price` key
in its catalog entry, so the code falls back to the default 15.00;
seat `B1` costs 20. -/
def seatA5 : SeatData :=
  { seat_number := "A5", row := "A", column := 5, price_tier := "Standard",
    price := some 12 }

def seatA6 : SeatData :=
  { seat_number := "A6", row := "A", column := 6, price_tier := "Standard",
    price := none }

def seatB1 : SeatData :=
  { seat_number := "B1", row := "B", column := 1, price_tier := "Premium",
    price := some 20 }

/-- The state right after startup: catalog loaded, both ledgers empty. -/
def state0 : ServerState :=
  { movies := [("mv001", mv001)]
    theaters := [("th001", th001)]
    showtimes := [("st001", st001)]
    seats_data := [("st001", [seatA5, seatA6, seatB1])]
    bookings := []
    payments := [] }

/-- Two users reserve the same free seat `A5`; both reservations succeed
because `_book_seats` only checks *confirmed* bookings. -/
def state1 : ServerState :=
  (book_seats state0 "st001" ["A5"] "u1" "b1" "2025-10-27T10:00:00").2

def state2 : ServerState :=
  (book_seats state1 "st001" ["A5"] "u2" "b2" "2025-10-27T10:05:00").2

/-- Both pending bookings are then settled at the exact total (12), each
passing the pending-status and amount checks of `_process_payment`. -/
def state3 : ServerState :=
  (process_payment state2 "b1" "card" 12 "p1").2

def state4 : ServerState :=
  (process_payment state3 "b2" "card" 12 "p2").2

end Demo

/-! ### The availability predicate of the spec -/

/-- A seat is taken for a showtime iff some *confirmed* booking for that
showtime lists it (the `is_booked` check, propositionally). -/
def seat_taken (bookings : List (String × Booking)) (showtime_id seat_num : String) : Prop :=
  ∃ b ∈ dvalues bookings,
    b.showtime_id = showtime_id ∧ b.status = "confirmed" ∧ seat_num ∈ b.seats

instance (bookings : List (String × Booking)) (showtime_id seat_num : String) :
    Decidable (seat_taken bookings showtime_id seat_num) := by
  unfold seat_taken; infer_instance


/-! ### The validation loop of `_book_seats`, characterised -/

/-- The reason string the validation loop records for a requested seat,
if any: a seat absent from the lookup yields `"... (doesn\x27t exist)"`, a
confirmed-booked one yields `"... (already booked)"`, a good seat yields
nothing. -/
def seat_reason (seat_lookup : List (String × SeatData))
    (bookings : List (String × Booking)) (showtime_id : String)
    (seat_num : String) : Option String :=
  match dget seat_lookup seat_num with
  | none => some (seat_num ++ " (doesn\x27t exist)")
  | some _ =>
    if seatIsBooked bookings showtime_id seat_num then
      some (seat_num ++ " (already booked)")
    else
      none

/-- A requested seat passes both checks of the loop: it exists in the
seat lookup of the showtime and is not confirmed-booked. -/
def seat_ok (seat_lookup : List (String × SeatData))
    (bookings : List (String × Booking)) (showtime_id : String)
    (seat_num : String) : Bool :=
  (dget seat_lookup seat_num).isSome && !seatIsBooked bookings showtime_id seat_num

/-- The unit price the loop adds for a good seat: the catalog price, or the
default 15.00 when the catalog entry omits one. -/
def seat_price (seat_lookup : List (String × SeatData)) (seat_num : String) : Rat :=
  match dget seat_lookup seat_num with
  | some seat => seat.price.getD 15
  | none => 0

/-- The Booking record `_book_seats` constructs on success (definitionally
the record literal of the source). -/
def newBooking (showtime_id : String) (seats : List String)
    (user_id : String) (total_price : Rat) (booking_uuid now : String) : Booking :=
  { booking_id := booking_uuid, showtime_id := showtime_id, seats := seats,
    user_id := user_id, status := "pending", total_price := total_price,
    created_at := now }

/-- The Payment record `_process_payment` constructs on success
(definitionally the record literal of the source). -/
def newPayment (booking_id : String) (amount : Rat) (payment_method : String)
    (payment_uuid : String) : Payment :=
  { payment_id := payment_uuid, booking_id := booking_id, amount := amount,
    payment_method := payment_method, status := "success",
    receipt_url := some ("https://amc.com/receipts/" ++ payment_uuid) }


/-! ### Spec-level predicates -/

/-- The no-double-booking invariant of the spec: no seat identifier appears
in the seat lists of two distinct confirmed bookings for the same showtime. -/
def double_booking_free (st : ServerState) : Prop :=
  ∀ b1 ∈ dvalues st.bookings, ∀ b2 ∈ dvalues st.bookings,
    b1.booking_id ≠ b2.booking_id → b1.status = "confirmed" →
    b2.status = "confirmed" → b1.showtime_id = b2.showtime_id →
    ∀ s ∈ b1.seats, s ∉ b2.seats

instance (st : ServerState) : Decidable (double_booking_free st) := by
  unfold double_booking_free; infer_instance

/-- The payment-ledger invariant of the spec: every Payment has status
`success` and references an existing booking. -/
def payments_valid (st : ServerState) : Prop :=
  ∀ p ∈ dvalues st.payments, p.status = "success" ∧ dmem st.bookings p.booking_id = true

instance (st : ServerState) : Decidable (payments_valid st) := by
  unfold payments_valid; infer_instance


/-! ### Concrete records kept by the demo trace, for the witnesses below -/

namespace Demo

/-- The booking `b1` as created by the first reserve of the trace. -/
def booking1 : Booking :=
  { booking_id := "b1", showtime_id := "st001", seats := ["A5"], user_id := "u1",
    status := "pending", total_price := 12, created_at := "2025-10-27T10:00:00" }

/-- The payload returned by the first reserve of the trace. -/
def bookPayload1 : BookingPayload :=
  { booking_id := "b1", status := "pending", movie := "Inception",
    theater := "AMC Boston Common", date := "2025-10-28", time := "19:00",
    seats := ["A5"], total_price := 12 }

/-- The seat-map entry for `A5` in `state3` (where booking `b1` is
confirmed): marked unavailable. -/
def entryA5 : SeatMapEntry :=
  { seat_number := "A5", row := "A", column := 5, is_available := false,
    price_tier := "Standard", price := 12 }

/-- The full seat map returned for `st001` in `state3`. -/
def payload3 : SeatMapPayload :=
  { showtime_id := "st001", movie := "Inception", theater := "AMC Boston Common",
    date := "2025-10-28", time := "19:00",
    seat_map :=
      [entryA5,
       { seat_number := "A6", row := "A", column := 6, is_available := true,
         price_tier := "Standard", price := 15 },
       { seat_number := "B1", row := "B", column := 1, is_available := true,
         price_tier := "Premium", price := 20 }] }

end Demo


/-! ### Dictionary lemmas -/

theorem dget_dset_self {α : Type} (d : List (String × α)) (k : String) (v : α) :
    dget (dset d k v) k = some v := by
  induction d with
  | nil => simp [dget, dset]
  | cons p t ih =>
    obtain ⟨k', v'⟩ := p
    by_cases h : k' == k
    · simp [dget, dset, h]
    · simp only [dset, h, Bool.false_eq_true, if_false]
      simp [dget, h, ih]

theorem dget_dset_ne {α : Type} (d : List (String × α)) (k k' : String) (v : α)
    (h : k ≠ k') : dget (dset d k v) k' = dget d k' := by
  induction d with
  | nil => simp [dget, dset, h, fun hc => h (by simpa using hc)]
  | cons p t ih =>
    obtain ⟨k₀, v₀⟩ := p
    by_cases h₀ : k₀ == k
    · have hk : k₀ = k := by simpa using h₀
      subst hk
      simp [dget, dset, h₀, beq_eq_false_iff_ne.mpr h]
    · simp only [dset, h₀, Bool.false_eq_true, if_false]
      by_cases h₁ : k₀ == k'
      · simp [dget, h₁]
      · simp [dget, h₀, h₁, ih]

theorem isSome_dget_dset {α : Type} (d : List (String × α)) (k k' : String) (v : α)
    (h : (dget d k').isSome = true) : (dget (dset d k v) k').isSome = true := by
  by_cases hk : k = k'
  · subst hk; simp [dget_dset_self]
  · rwa [dget_dset_ne _ _ _ _ hk]

theorem dset_eq_append {α : Type} (d : List (String × α)) (k : String) (v : α)
    (h : dget d k = none) : dset d k v = d ++ [(k, v)] := by
  induction d with
  | nil => simp [dset]
  | cons p t ih =>
    obtain ⟨k₀, v₀⟩ := p
    by_cases h₀ : k₀ == k
    · simp [dget, h₀] at h
    · simp only [dget, h₀, Bool.false_eq_true, if_false] at h
      simp [dset, h₀, ih h]

theorem dvalues_cons {α : Type} (p : String × α) (t : List (String × α)) :
    dvalues (p :: t) = p.2 :: dvalues t := rfl

theorem mem_dvalues_dset {α : Type} (d : List (String × α)) (k : String) (v : α)
    (b : α) (h : b ∈ dvalues (dset d k v)) : b = v ∨ b ∈ dvalues d := by
  induction d with
  | nil => simpa [dset, dvalues] using h
  | cons p t ih =>
    obtain ⟨k₀, v₀⟩ := p
    by_cases h₀ : k₀ == k
    · simp only [dset, h₀, if_true, dvalues_cons, List.mem_cons] at h
      rcases h with h1 | h1
      · exact Or.inl h1
      · exact Or.inr (by simp [dvalues_cons, List.mem_cons, h1])
    · simp only [dset, h₀, Bool.false_eq_true, if_false, dvalues_cons, List.mem_cons] at h
      rcases h with h1 | h1
      · exact Or.inr (by simp [dvalues_cons, List.mem_cons, h1])
      · rcases ih h1 with h2 | h2
        · exact Or.inl h2
        · exact Or.inr (by simp [dvalues_cons, List.mem_cons, h2])

theorem dget_mem_dvalues {α : Type} (d : List (String × α)) (k : String) (v : α)
    (h : dget d k = some v) : v ∈ dvalues d := by
  induction d with
  | nil => simp [dget] at h
  | cons p t ih =>
    obtain ⟨k₀, v₀⟩ := p
    by_cases h₀ : k₀ == k
    · simp only [dget, h₀, if_true, Option.some.injEq] at h
      simp [dvalues_cons, h]
    · simp only [dget, h₀, Bool.false_eq_true, if_false] at h
      simp [dvalues_cons, List.mem_cons, ih h]


theorem seatIsBooked_iff_taken (bookings : List (String × Booking))
    (showtime_id seat_num : String) :
    seatIsBooked bookings showtime_id seat_num = true ↔
      seat_taken bookings showtime_id seat_num := by
  unfold seatIsBooked seat_taken
  rw [List.any_eq_true]
  constructor
  · rintro ⟨b, hb, hcond⟩
    simp only [Bool.and_eq_true, beq_iff_eq, List.elem_iff] at hcond
    exact ⟨b, hb, hcond.1, hcond.2.2, hcond.2.1⟩
  · rintro ⟨b, hb, h1, h2, h3⟩
    refine ⟨b, hb, ?_⟩
    simp only [Bool.and_eq_true, beq_iff_eq, List.elem_iff]
    exact ⟨h1, h3, h2⟩


theorem seat_check_foldl_unavailable (seat_lookup : List (String × SeatData))
    (bookings : List (String × Booking)) (showtime_id : String) :
    ∀ (seats : List String) (acc : SeatCheckAcc),
      (seats.foldl (seat_check seat_lookup bookings showtime_id) acc).unavailable_seats
        = acc.unavailable_seats
            ++ seats.filterMap (seat_reason seat_lookup bookings showtime_id) := by
  intro seats
  induction seats with
  | nil => intro acc; simp
  | cons s t ih =>
    intro acc
    simp only [List.foldl_cons, List.filterMap_cons]
    rw [ih]
    unfold seat_check seat_reason
    cases h : dget seat_lookup s with
    | none => simp
    | some seat =>
      by_cases hb : seatIsBooked bookings showtime_id s
      · simp [hb]
      · simp [hb]

theorem seat_check_foldl_ok (seat_lookup : List (String × SeatData))
    (bookings : List (String × Booking)) (showtime_id : String) :
    ∀ (seats : List String) (acc : SeatCheckAcc),
      (∀ s ∈ seats, seat_ok seat_lookup bookings showtime_id s = true) →
      seats.foldl (seat_check seat_lookup bookings showtime_id) acc
        = { unavailable_seats := acc.unavailable_seats,
            total_price :=
              acc.total_price + (seats.map (seat_price seat_lookup)).sum } := by
  intro seats
  induction seats with
  | nil => intro acc _; simp
  | cons s t ih =>
    intro acc hgood
    have hs := hgood s (List.mem_cons_self s t)
    simp only [seat_ok, Bool.and_eq_true, Bool.not_eq_true', Option.isSome_iff_exists] at hs
    obtain ⟨⟨seat, hseat⟩, hfree⟩ := hs
    simp only [List.foldl_cons, List.map_cons, List.sum_cons]
    rw [ih _ (fun x hx => hgood x (List.mem_cons_of_mem s hx))]
    unfold seat_check
    rw [hseat]
    simp only [hfree, Bool.false_eq_true, if_false]
    congr 1
    unfold seat_price
    rw [hseat]
    ring

/-! ### Shape lemmas for the stateful operations -/

theorem get_seat_map_state (st : ServerState) (showtime_id : String) :
    (get_seat_map st showtime_id).2 = st := by
  unfold get_seat_map
  split
  · rfl
  · split <;> rfl

theorem get_seat_map_ok_inv {st : ServerState} {showtime_id : String}
    {payload : SeatMapPayload}
    (h : (get_seat_map st showtime_id).1 = .ok payload) :
    payload.seat_map
      = ((dget st.seats_data showtime_id).getD []).map fun seat_data =>
          { seat_number := seat_data.seat_number
            row := seat_data.row
            column := seat_data.column
            is_available := !seatIsBooked st.bookings showtime_id seat_data.seat_number
            price_tier := seat_data.price_tier
            price := seat_data.price.getD 15 } := by
  unfold get_seat_map at h
  split at h
  · simp at h
  · split at h
    · simp at h
    · simp only [SeatMapResult.ok.injEq] at h
      rw [← h]

theorem book_seats_state (st : ServerState) (showtime_id : String)
    (seats : List String) (user_id booking_uuid now : String) :
    (book_seats st showtime_id seats user_id booking_uuid now).2 = st ∨
    ∃ booking, (book_seats st showtime_id seats user_id booking_uuid now).2
      = { st with bookings := dset st.bookings booking_uuid booking } := by
  unfold book_seats
  split
  · exact Or.inl rfl
  split
  · exact Or.inl rfl
  split
  · exact Or.inl rfl
  dsimp only
  split
  · exact Or.inl rfl
  · exact Or.inr ⟨_, rfl⟩

theorem book_seats_ok_inv {st : ServerState} {showtime_id : String}
    {seats : List String} {user_id booking_uuid now : String}
    {payload : BookingPayload} {st1 : ServerState}
    (h : book_seats st showtime_id seats user_id booking_uuid now = (.ok payload, st1)) :
    ∃ showtime,
      dget st.showtimes showtime_id = some showtime ∧
      payload.booking_id = booking_uuid ∧
      payload.status = "pending" ∧
      payload.seats = seats ∧
      st1 = { st with
                bookings := dset st.bookings booking_uuid
                    (newBooking showtime_id seats user_id payload.total_price
                      booking_uuid now) } := by
  unfold book_seats at h
  split at h
  · simp at h
  split at h
  · simp at h
  next showtime heq =>
  dsimp only at h
  split at h
  · simp at h
  split at h
  · simp at h
  · simp only [Prod.mk.injEq, BookSeatsResult.ok.injEq] at h
    obtain ⟨hp, hs⟩ := h
    subst hp
    exact ⟨showtime, heq, rfl, rfl, rfl, hs.symm⟩

theorem process_payment_state (st : ServerState) (booking_id payment_method : String)
    (amount : Rat) (payment_uuid : String) :
    (process_payment st booking_id payment_method amount payment_uuid).2 = st ∨
    ∃ booking, dget st.bookings booking_id = some booking ∧
      booking.status = "pending" ∧
      (process_payment st booking_id payment_method amount payment_uuid).2
        = { st with
            payments := dset st.payments payment_uuid
              (newPayment booking_id amount payment_method payment_uuid)
            bookings := dset st.bookings booking_id
              { booking with status := "confirmed" } } := by
  unfold process_payment
  split
  · exact Or.inl rfl
  split
  · exact Or.inl rfl
  next booking heq =>
  split
  · exact Or.inl rfl
  next hstatus =>
  split
  · exact Or.inl rfl
  · right
    refine ⟨booking, heq, ?_, ?_⟩
    · simpa using hstatus
    · dsimp only
      split <;> rfl

theorem process_payment_not_pending (st : ServerState)
    (booking_id payment_method : String) (amount : Rat) (payment_uuid : String)
    (booking : Booking)
    (hbid : booking_id ≠ "")
    (hb : dget st.bookings booking_id = some booking)
    (hstatus : booking.status ≠ "pending") :
    process_payment st booking_id payment_method amount payment_uuid
      = (.error ("Booking status is " ++ booking.status ++ ", expected pending"), st) := by
  unfold process_payment
  simp only [beq_eq_false_iff_ne.mpr hbid, Bool.false_eq_true, if_false, hb]
  simp [bne_iff_ne, hstatus]

theorem process_payment_amount_mismatch (st : ServerState)
    (booking_id payment_method : String) (amount : Rat) (payment_uuid : String)
    (booking : Booking)
    (hbid : booking_id ≠ "")
    (hb : dget st.bookings booking_id = some booking)
    (hpending : booking.status = "pending")
    (hfar : pyabs (amount - booking.total_price) > 1 / 100) :
    process_payment st booking_id payment_method amount payment_uuid
      = (.amountMismatch booking.total_price amount, st) := by
  unfold process_payment
  simp only [beq_eq_false_iff_ne.mpr hbid, Bool.false_eq_true, if_false, hb]
  simp only [hpending, bne_self_eq_false, Bool.false_eq_true, if_false]
  rw [if_pos hfar]

theorem process_payment_pending_exact (st : ServerState)
    (booking_id payment_method : String) (amount : Rat) (payment_uuid : String)
    (booking : Booking) (showtime : Showtime)
    (hbid : booking_id ≠ "")
    (hb : dget st.bookings booking_id = some booking)
    (hpending : booking.status = "pending")
    (hamount : pyabs (amount - booking.total_price) ≤ 1 / 100)
    (hshow : dget st.showtimes booking.showtime_id = some showtime) :
    process_payment st booking_id payment_method amount payment_uuid
      = (.ok { payment_id := payment_uuid
               payment_status := "success"
               booking_id := booking_id
               receipt_url := "https://amc.com/receipts/" ++ payment_uuid
               confirmation :=
                 { movie := movieTitle st.movies showtime.movie_id
                   theater := theaterName st.theaters showtime.theater_id
                   date := showtime.date
                   time := showtime.time
                   seats := booking.seats
                   total_paid := amount } },
         { st with
           payments := dset st.payments payment_uuid
             { payment_id := payment_uuid
               booking_id := booking_id
               amount := amount
               payment_method := payment_method
               status := "success"
               receipt_url := some ("https://amc.com/receipts/" ++ payment_uuid) }
           bookings := dset st.bookings booking_id
             { booking with status := "confirmed" } }) := by
  unfold process_payment
  simp only [beq_eq_false_iff_ne.mpr hbid, Bool.false_eq_true, if_false, hb]
  simp only [hpending, bne_self_eq_false, Bool.false_eq_true, if_false,
    not_lt.mpr hamount, if_neg (not_lt.mpr hamount)]
  simp only [hshow]



theorem Demo.reachable_state4 : Reachable Demo.state4 := by
  have h0 : Reachable Demo.state0 :=
    Reachable.init [("mv001", Demo.mv001)] [("th001", Demo.th001)]
      [("st001", Demo.st001)] [("st001", [Demo.seatA5, Demo.seatA6, Demo.seatB1])]
  have h1 : Reachable Demo.state1 :=
    Reachable.book Demo.state0 "st001" ["A5"] "u1" "b1" "2025-10-27T10:00:00" h0
      (by with_unfolding_all rfl)
  have h2 : Reachable Demo.state2 :=
    Reachable.book Demo.state1 "st001" ["A5"] "u2" "b2" "2025-10-27T10:05:00" h1
      (by with_unfolding_all rfl)
  have h3 : Reachable Demo.state3 :=
    Reachable.pay Demo.state2 "b1" "card" 12 "p1" h2 (by with_unfolding_all rfl)
  exact Reachable.pay Demo.state3 "b2" "card" 12 "p2" h3 (by with_unfolding_all rfl)

/-- Success path of `_book_seats`: with an existing showtime, non-empty
arguments, a fresh uuid and every requested seat existing and free, the
booking is created with total price the sum of the per-occurrence seat
prices and appended to the ledger. -/
theorem book_seats_all_good (st : ServerState) (showtime_id : String)
    (seats : List String) (user_id booking_uuid now : String) (showtime : Showtime)
    (hsid : showtime_id ≠ "")
    (hst : dget st.showtimes showtime_id = some showtime)
    (hseats : seats ≠ []) (huid : user_id ≠ "")
    (hfresh : dget st.bookings booking_uuid = none)
    (hgood : ∀ s ∈ seats,
      seat_ok (seat_lookup_of st showtime_id) st.bookings showtime_id s = true) :
    book_seats st showtime_id seats user_id booking_uuid now
      = (.ok { booking_id := booking_uuid
               status := "pending"
               movie := movieTitle st.movies showtime.movie_id
               theater := theaterName st.theaters showtime.theater_id
               date := showtime.date
               time := showtime.time
               seats := seats
               total_price :=
                 (seats.map (seat_price (seat_lookup_of st showtime_id))).sum },
         { st with
             bookings := st.bookings ++
               [(booking_uuid,
                 newBooking showtime_id seats user_id
                   ((seats.map (seat_price (seat_lookup_of st showtime_id))).sum)
                   booking_uuid now)] }) := by
  unfold book_seats
  rw [if_neg (by simp [hsid])]
  split
  next h => rw [hst] at h; cases h
  next sh h =>
  rw [hst] at h
  injection h with h
  subst h
  have hne : seats.isEmpty = false := by
    cases seats with
    | nil => exact absurd rfl hseats
    | cons a t => rfl
  rw [if_neg (by simp [hne, huid])]
  dsimp only
  rw [seat_check_foldl_ok _ _ _ seats { unavailable_seats := [], total_price := 0 } hgood]
  rw [if_neg (by simp)]
  rw [dset_eq_append st.bookings booking_uuid _ hfresh]
  simp [newBooking]

theorem seat_reason_isSome_of_not_ok {seat_lookup : List (String × SeatData)}
    {bookings : List (String × Booking)} {showtime_id s : String}
    (h : seat_ok seat_lookup bookings showtime_id s = false) :
    (seat_reason seat_lookup bookings showtime_id s).isSome = true := by
  unfold seat_ok at h
  unfold seat_reason
  cases hd : dget seat_lookup s with
  | none => rfl
  | some seat =>
    rw [hd] at h
    simp only [Option.isSome_some, Bool.true_and] at h
    have hb : seatIsBooked bookings showtime_id s = true := by
      cases hbv : seatIsBooked bookings showtime_id s
      · simp [hbv] at h
      · rfl
    simp [hb]

/-! ### The claims -/

/-- Claim C1: the spec asserts the no-double-booking invariant (no seat
identifier in the seat lists of two distinct confirmed bookings for the
same showtime, in any state reachable by reserve and settle calls from
empty ledgers).  The code violates it: `_book_seats` only checks
*confirmed* bookings, so two pending bookings may hold the same seat, and
`_process_payment` re-checks nothing about seats, so both can then be
settled.  The concrete trace `state0 → … → state4` (reserve A5 twice, then
settle both bookings at the exact price) is reachable and ends with `b1`
and `b2` both confirmed and both listing seat `A5` of showtime `st001`. -/
theorem double_booking_violation :
    Reachable Demo.state4 ∧ ¬ double_booking_free Demo.state4 :=
  ⟨Demo.reachable_state4, by with_unfolding_all decide⟩

/-- Claim C2: for every existing showtime, `get_seat_map` marks a returned
seat unavailable iff that seat identifier appears in the seat list of some
booking with status confirmed for that showtime; bookings with status
pending or cancelled never cause a seat to be marked unavailable. -/
theorem availability_iff_confirmed_booking
    (st : ServerState) (showtime_id : String) (payload : SeatMapPayload)
    (entry : SeatMapEntry)
    (hok : (get_seat_map st showtime_id).1 = .ok payload)
    (hentry : entry ∈ payload.seat_map) :
    entry.is_available = false ↔
      seat_taken st.bookings showtime_id entry.seat_number := by
  rw [get_seat_map_ok_inv hok] at hentry
  rcases List.mem_map.mp hentry with ⟨sd, _, rfl⟩
  dsimp only
  rw [← seatIsBooked_iff_taken]
  cases seatIsBooked st.bookings showtime_id sd.seat_number <;> simp

/-- Witness for C2 at the demo trace: in `state3` (booking `b1` is
confirmed and holds A5) the A5 entry is marked unavailable, and indeed a
confirmed booking lists it. -/
theorem availability_iff_confirmed_booking_witness :
    Demo.entryA5.is_available = false ↔
      seat_taken Demo.state3.bookings "st001" Demo.entryA5.seat_number :=
  availability_iff_confirmed_booking Demo.state3 "st001" Demo.payload3 Demo.entryA5
    (by with_unfolding_all rfl) (by decide)

/-- Claim C3: after a successful reserve, one settle at the exact returned
total price succeeds and moves the booking from pending to confirmed, and
a second settle on the same booking (any amount, any method) fails with
the InvalidState message naming the actual status `confirmed` and changes
nothing, so a booking is never paid twice. -/
theorem reserve_then_settle_round_trip
    (st : ServerState) (showtime_id : String) (seats : List String)
    (user_id booking_uuid now : String) (payload : BookingPayload) (st1 : ServerState)
    (payment_method payment_uuid payment_method2 payment_uuid2 : String)
    (amount2 : Rat)
    (hbid : booking_uuid ≠ "")
    (hbook : book_seats st showtime_id seats user_id booking_uuid now
      = (.ok payload, st1)) :
    ∃ pay st2,
      (dget st1.bookings booking_uuid).map Booking.status = some "pending" ∧
      process_payment st1 booking_uuid payment_method payload.total_price payment_uuid
        = (.ok pay, st2) ∧
      (dget st2.bookings booking_uuid).map Booking.status = some "confirmed" ∧
      process_payment st2 booking_uuid payment_method2 amount2 payment_uuid2
        = (.error "Booking status is confirmed, expected pending", st2) := by
  obtain ⟨showtime, hst, _, _, _, hst1⟩ := book_seats_ok_inv hbook
  subst hst1
  have hd : dget (dset st.bookings booking_uuid
      (newBooking showtime_id seats user_id payload.total_price booking_uuid now))
      booking_uuid
      = some (newBooking showtime_id seats user_id payload.total_price
          booking_uuid now) :=
    dget_dset_self _ _ _
  have hamount : pyabs (payload.total_price -
      (newBooking showtime_id seats user_id payload.total_price
        booking_uuid now).total_price) ≤ 1 / 100 := by
    show pyabs (payload.total_price - payload.total_price) ≤ 1 / 100
    rw [sub_self]
    norm_num [pyabs]
  have h1 := process_payment_pending_exact
    { st with bookings := dset st.bookings booking_uuid (newBooking showtime_id seats user_id payload.total_price booking_uuid now) }
    booking_uuid payment_method payload.total_price payment_uuid
    (newBooking showtime_id seats user_id payload.total_price booking_uuid now)
    showtime hbid hd rfl hamount hst
  refine ⟨_, _, ?_, h1, ?_, ?_⟩
  · rw [hd]; rfl
  · exact congrArg (Option.map Booking.status) (dget_dset_self _ _ _)
  · have h2 := process_payment_not_pending
      { st with
          payments := dset st.payments payment_uuid (newPayment booking_uuid payload.total_price payment_method payment_uuid)
          bookings := dset (dset st.bookings booking_uuid (newBooking showtime_id seats user_id payload.total_price booking_uuid now)) booking_uuid { newBooking showtime_id seats user_id payload.total_price booking_uuid now with status := "confirmed" } }
      booking_uuid payment_method2 amount2 payment_uuid2
      { newBooking showtime_id seats user_id payload.total_price booking_uuid now with status := "confirmed" }
      hbid (dget_dset_self _ _ _) (by show ("confirmed" : String) ≠ "pending"; decide)
    exact h2

/-- Witness for C3 at the demo trace: reserving A5 on the fresh catalog
returns total 12; settling booking `b1` at 12 succeeds and confirms it,
and a repeated settle fails naming status confirmed. -/
theorem reserve_then_settle_round_trip_witness :
    ∃ pay st2,
      (dget Demo.state1.bookings "b1").map Booking.status = some "pending" ∧
      process_payment Demo.state1 "b1" "card" Demo.bookPayload1.total_price "p1"
        = (.ok pay, st2) ∧
      (dget st2.bookings "b1").map Booking.status = some "confirmed" ∧
      process_payment st2 "b1" "cash" 5 "p9"
        = (.error "Booking status is confirmed, expected pending", st2) :=
  reserve_then_settle_round_trip Demo.state0 "st001" ["A5"] "u1" "b1"
    "2025-10-27T10:00:00" Demo.bookPayload1 Demo.state1 "card" "p1" "cash" "p9" 5
    (by decide) (by with_unfolding_all rfl)

/-- Claim C4: a reserve request in which at least one requested seat does
not exist in the seat layout or is already confirmed-booked is rejected as
a whole: every requested seat is examined, the conflict error carries one
entry per offending seat with its reason, in request order, and the state
(in particular the booking ledger) is unchanged. -/
theorem reserve_rejects_batch_atomically
    (st : ServerState) (showtime_id : String) (seats : List String)
    (user_id booking_uuid now : String) (showtime : Showtime)
    (hsid : showtime_id ≠ "")
    (hst : dget st.showtimes showtime_id = some showtime)
    (hseats : seats ≠ []) (huid : user_id ≠ "")
    (hbad : ∃ s ∈ seats,
      seat_ok (seat_lookup_of st showtime_id) st.bookings showtime_id s = false) :
    book_seats st showtime_id seats user_id booking_uuid now
      = (.unavailable (seats.filterMap
          (seat_reason (seat_lookup_of st showtime_id) st.bookings showtime_id)),
         st) := by
  unfold book_seats
  rw [if_neg (by simp [hsid])]
  split
  next h => rw [hst] at h; cases h
  next sh h =>
  rw [hst] at h
  injection h with h
  subst h
  have hne : seats.isEmpty = false := by
    cases seats with
    | nil => exact absurd rfl hseats
    | cons a t => rfl
  rw [if_neg (by simp [hne, huid])]
  dsimp only
  rw [seat_check_foldl_unavailable]
  have hfm : seats.filterMap
      (seat_reason (seat_lookup_of st showtime_id) st.bookings showtime_id) ≠ [] := by
    obtain ⟨s, hs, hbadok⟩ := hbad
    intro hnil
    have hnone := (List.filterMap_eq_nil_iff.mp hnil) s hs
    have hsome := seat_reason_isSome_of_not_ok hbadok
    rw [hnone] at hsome
    cases hsome
  have hemp : (seats.filterMap
      (seat_reason (seat_lookup_of st showtime_id) st.bookings showtime_id)).isEmpty
        = false := by
    cases hc : seats.filterMap
        (seat_reason (seat_lookup_of st showtime_id) st.bookings showtime_id) with
    | nil => exact absurd hc hfm
    | cons a t => rfl
  rw [if_pos (by simp [hemp])]
  simp

/-- Witness for C4 at the demo trace: in `state3`, requesting A5 (already
confirmed-booked), Z99 (nonexistent) and A6 (fine) is rejected with both
offending seats listed, each with its reason, and the state unchanged. -/
theorem reserve_rejects_batch_atomically_witness :
    book_seats Demo.state3 "st001" ["A5", "Z99", "A6"] "u3" "b3"
        "2025-10-27T11:00:00"
      = (.unavailable (["A5", "Z99", "A6"].filterMap
          (seat_reason (seat_lookup_of Demo.state3 "st001") Demo.state3.bookings
            "st001")),
         Demo.state3) :=
  reserve_rejects_batch_atomically Demo.state3 "st001" ["A5", "Z99", "A6"] "u3"
    "b3" "2025-10-27T11:00:00" Demo.st001 (by decide)
    (by with_unfolding_all rfl) (by decide) (by decide)
    ⟨"Z99", by decide, by with_unfolding_all rfl⟩

/-- Claim C5: settling an existing pending booking with an amount that
differs from the recorded total by more than 0.01 fails with the mismatch
error carrying the expected and received amounts and leaves the state
(booking still pending, no Payment) unchanged; an amount within 0.01 of
the total, bound included, is accepted and confirms the booking. -/
theorem settle_amount_tolerance
    (st : ServerState) (booking_id : String) (booking : Booking)
    (showtime : Showtime) (payment_method : String) (amount : Rat)
    (payment_uuid : String)
    (hbid : booking_id ≠ "")
    (hb : dget st.bookings booking_id = some booking)
    (hpending : booking.status = "pending")
    (hshow : dget st.showtimes booking.showtime_id = some showtime) :
    (pyabs (amount - booking.total_price) > 1 / 100 →
      process_payment st booking_id payment_method amount payment_uuid
        = (.amountMismatch booking.total_price amount, st)) ∧
    (pyabs (amount - booking.total_price) ≤ 1 / 100 →
      ∃ payload st2,
        process_payment st booking_id payment_method amount payment_uuid
          = (.ok payload, st2) ∧
        dget st2.bookings booking_id = some { booking with status := "confirmed" }) := by
  constructor
  · intro hfar
    exact process_payment_amount_mismatch st booking_id payment_method amount
      payment_uuid booking hbid hb hpending hfar
  · intro hclose
    exact ⟨_, _, process_payment_pending_exact st booking_id payment_method amount
      payment_uuid booking showtime hbid hb hpending hclose hshow,
      dget_dset_self _ _ _⟩

/-- Witness for C5 at the demo trace: booking `b1` has total 12; an offer
of 12.01 sits exactly at the tolerance bound and is accepted, while the
mismatch branch is available for any offer beyond it. -/
theorem settle_amount_tolerance_witness :
    (pyabs ((1201 / 100 : Rat) - Demo.booking1.total_price) > 1 / 100 →
      process_payment Demo.state2 "b1" "card" (1201 / 100) "p1"
        = (.amountMismatch Demo.booking1.total_price (1201 / 100), Demo.state2)) ∧
    (pyabs ((1201 / 100 : Rat) - Demo.booking1.total_price) ≤ 1 / 100 →
      ∃ payload st2,
        process_payment Demo.state2 "b1" "card" (1201 / 100) "p1"
          = (.ok payload, st2) ∧
        dget st2.bookings "b1" = some { Demo.booking1 with status := "confirmed" }) :=
  settle_amount_tolerance Demo.state2 "b1" Demo.booking1 Demo.st001 "card"
    (1201 / 100) "p1" (by decide) (by with_unfolding_all rfl) (by decide)
    (by with_unfolding_all rfl)

/-- Claim C6: a reserve for an existing showtime with non-empty seat list
and user id, a fresh uuid, and every requested seat existing and free,
creates a new pending booking appended to the ledger, its total price the
sum over the requested seats of the unit price (default 15.00 when the
catalog entry omits one), and returns the booking id, status pending, the
seat list and that total. -/
theorem reserve_success_postcondition
    (st : ServerState) (showtime_id : String) (seats : List String)
    (user_id booking_uuid now : String) (showtime : Showtime)
    (hsid : showtime_id ≠ "")
    (hst : dget st.showtimes showtime_id = some showtime)
    (hseats : seats ≠ []) (huid : user_id ≠ "")
    (hfresh : dget st.bookings booking_uuid = none)
    (hgood : ∀ s ∈ seats,
      seat_ok (seat_lookup_of st showtime_id) st.bookings showtime_id s = true) :
    book_seats st showtime_id seats user_id booking_uuid now
      = (.ok { booking_id := booking_uuid
               status := "pending"
               movie := movieTitle st.movies showtime.movie_id
               theater := theaterName st.theaters showtime.theater_id
               date := showtime.date
               time := showtime.time
               seats := seats
               total_price :=
                 (seats.map (seat_price (seat_lookup_of st showtime_id))).sum },
         { st with
             bookings := st.bookings ++
               [(booking_uuid,
                 newBooking showtime_id seats user_id
                   ((seats.map (seat_price (seat_lookup_of st showtime_id))).sum)
                   booking_uuid now)] }) :=
  book_seats_all_good st showtime_id seats user_id booking_uuid now showtime
    hsid hst hseats huid hfresh hgood

/-- Witness for C6 at the demo trace: reserving A5 (priced 12) and A6 (no
catalog price, so the 15.00 default applies) on the fresh catalog creates
the pending booking with total 12 + 15. -/
theorem reserve_success_postcondition_witness :
    book_seats Demo.state0 "st001" ["A5", "A6"] "u1" "b7" "2025-10-27T09:00:00"
      = (.ok { booking_id := "b7"
               status := "pending"
               movie := movieTitle Demo.state0.movies Demo.st001.movie_id
               theater := theaterName Demo.state0.theaters Demo.st001.theater_id
               date := Demo.st001.date
               time := Demo.st001.time
               seats := ["A5", "A6"]
               total_price :=
                 ((["A5", "A6"]).map
                   (seat_price (seat_lookup_of Demo.state0 "st001"))).sum },
         { Demo.state0 with
             bookings := Demo.state0.bookings ++
               [("b7",
                 newBooking "st001" ["A5", "A6"] "u1"
                   (((["A5", "A6"]).map
                     (seat_price (seat_lookup_of Demo.state0 "st001"))).sum)
                   "b7" "2025-10-27T09:00:00")] }) :=
  reserve_success_postcondition Demo.state0 "st001" ["A5", "A6"] "u1" "b7"
    "2025-10-27T09:00:00" Demo.st001 (by decide) (by decide) (by decide)
    (by decide) (by decide) (by decide)

/-- Claim C7: in every reachable state, every Payment record has status
success and references a booking present in the booking ledger; a Payment
is only ever created on the success path of `_process_payment`, after the
existence, pending-status and amount checks, so no settlement failure
produces a failed Payment. -/
theorem payments_success_and_referenced (st : ServerState) (h : Reachable st) :
    payments_valid st := by
  induction h with
  | init movies theaters showtimes seats_data =>
    intro p hp
    cases hp
  | book st sid seats uid buid now hr hfresh ih =>
    rcases book_seats_state st sid seats uid buid now with heq | ⟨b, heq⟩
    · rwa [heq]
    · rw [heq]
      intro p hp
      rcases ih p (by simpa using hp) with ⟨h1, h2⟩
      refine ⟨h1, ?_⟩
      show (dget (dset st.bookings buid b) p.booking_id).isSome = true
      exact isSome_dget_dset _ _ _ _ h2
  | pay st bid method amount puid hr hfresh ih =>
    rcases process_payment_state st bid method amount puid with heq | ⟨b, hbk, hpend, heq⟩
    · rwa [heq]
    · rw [heq]
      intro p hp
      rcases mem_dvalues_dset _ _ _ _ (by simpa using hp) with rfl | hp2
      · refine ⟨rfl, ?_⟩
        show (dget (dset st.bookings bid { b with status := "confirmed" })
          (newPayment bid amount method puid).booking_id).isSome = true
        rw [show (newPayment bid amount method puid).booking_id = bid from rfl]
        rw [dget_dset_self]
        rfl
      · rcases ih p hp2 with ⟨h1, h2⟩
        refine ⟨h1, ?_⟩
        show (dget (dset st.bookings bid { b with status := "confirmed" })
          p.booking_id).isSome = true
        exact isSome_dget_dset _ _ _ _ h2

/-- Witness for C7: the invariant holds at the concrete reachable state
`state4` of the demo trace (two payments, both success, both referencing
existing bookings). -/
theorem payments_success_and_referenced_witness : payments_valid Demo.state4 :=
  payments_success_and_referenced Demo.state4 Demo.reachable_state4

/-- Claim C8: `get_seat_map` is a pure read: for every argument, whether
the call succeeds or fails, the whole state (ledgers and catalog) is
returned unchanged, and each returned availability flag is computed from
the booking ledger as it is at call time. -/
theorem seat_map_pure_read
    (st : ServerState) (showtime_id : String) (payload : SeatMapPayload)
    (entry : SeatMapEntry)
    (hok : (get_seat_map st showtime_id).1 = .ok payload)
    (hentry : entry ∈ payload.seat_map) :
    (∀ s : String, (get_seat_map st s).2 = st) ∧
    entry.is_available = !seatIsBooked st.bookings showtime_id entry.seat_number := by
  refine ⟨get_seat_map_state st, ?_⟩
  rw [get_seat_map_ok_inv hok] at hentry
  rcases List.mem_map.mp hentry with ⟨sd, _, rfl⟩
  rfl

/-- Witness for C8 at the demo trace: the seat-map call on `state3` leaves
the state unchanged and the A5 flag is the negated live booked-check. -/
theorem seat_map_pure_read_witness :
    (∀ s : String, (get_seat_map Demo.state3 s).2 = Demo.state3) ∧
    Demo.entryA5.is_available
      = !seatIsBooked Demo.state3.bookings "st001" Demo.entryA5.seat_number :=
  seat_map_pure_read Demo.state3 "st001" Demo.payload3 Demo.entryA5
    (by with_unfolding_all rfl) (by decide)

/-- Claim C9: duplicate seat identifiers in one reserve request are not
rejected: reserving the same existing free seat twice creates the booking
with the duplicate retained in its seat list and the seat price counted
once per occurrence (total twice the unit price). -/
theorem duplicate_seats_counted_per_occurrence
    (st : ServerState) (showtime_id user_id booking_uuid now : String)
    (showtime : Showtime) (seat : SeatData) (s : String)
    (hsid : showtime_id ≠ "")
    (hst : dget st.showtimes showtime_id = some showtime)
    (huid : user_id ≠ "")
    (hfresh : dget st.bookings booking_uuid = none)
    (hseat : dget (seat_lookup_of st showtime_id) s = some seat)
    (hfree : seatIsBooked st.bookings showtime_id s = false) :
    ∃ payload st1,
      book_seats st showtime_id [s, s] user_id booking_uuid now
        = (.ok payload, st1) ∧
      payload.seats = [s, s] ∧
      payload.total_price = 2 * seat.price.getD 15 ∧
      dget st1.bookings booking_uuid
        = some (newBooking showtime_id [s, s] user_id (2 * seat.price.getD 15)
            booking_uuid now) := by
  have hgood : ∀ x ∈ [s, s],
      seat_ok (seat_lookup_of st showtime_id) st.bookings showtime_id x = true := by
    intro x hx
    have hxs : x = s := by
      rcases List.mem_cons.mp hx with h | h
      · exact h
      · simpa using h
    subst hxs
    simp [seat_ok, hseat, hfree]
  have hsum : (([s, s]).map (seat_price (seat_lookup_of st showtime_id))).sum
      = 2 * seat.price.getD 15 := by
    simp only [List.map_cons, List.map_nil, List.sum_cons, List.sum_nil]
    unfold seat_price
    rw [hseat]
    ring
  have h := book_seats_all_good st showtime_id [s, s] user_id booking_uuid now
    showtime hsid hst (by simp) huid hfresh hgood
  rw [hsum] at h
  refine ⟨_, _, h, rfl, rfl, ?_⟩
  show dget (st.bookings ++ [(booking_uuid, _)]) booking_uuid = _
  rw [← dset_eq_append st.bookings booking_uuid _ hfresh]
  exact dget_dset_self _ _ _

/-- Witness for C9 at the demo trace: reserving A5 twice in one request on
the fresh catalog yields a pending booking over seats A5, A5 with total
2 times 12. -/
theorem duplicate_seats_counted_per_occurrence_witness :
    ∃ payload st1,
      book_seats Demo.state0 "st001" ["A5", "A5"] "u1" "b8" "2025-10-27T09:30:00"
        = (.ok payload, st1) ∧
      payload.seats = ["A5", "A5"] ∧
      payload.total_price = 2 * Demo.seatA5.price.getD 15 ∧
      dget st1.bookings "b8"
        = some (newBooking "st001" ["A5", "A5"] "u1" (2 * Demo.seatA5.price.getD 15)
            "b8" "2025-10-27T09:30:00") :=
  duplicate_seats_counted_per_occurrence Demo.state0 "st001" "u1" "b8"
    "2025-10-27T09:30:00" Demo.st001 Demo.seatA5 "A5" (by decide) (by decide)
    (by decide) (by decide) (by decide) (by decide)

/-- Claim C10: the FastMCP module-level implementation and the
`AMCMCPServer` class implementation are behaviourally identical on the
core: given the same state, the same arguments and the same generated
uuid and timestamp, the seat-map, reserve and settle operations return
equal payloads and equal successor states. -/
theorem implementations_equivalent :
    AMCMCPServer.get_seat_map = get_seat_map ∧
    AMCMCPServer.book_seats = book_seats ∧
    AMCMCPServer.process_payment = process_payment :=
  ⟨rfl, rfl, rfl⟩

end AmcMcp
